import Mathlib

/-!
Shallow embedding of `src/tracking_server.py` (email-tracking server).

The server keeps two SQLite tables, `email_tracking` and `link_tracking`
(created in `init_database`, lines 20-57), and exposes two event handlers:

* `track_email` (lines 79-123): `GET /track/<tracking_id>` — looks up the
  record, increments its open count (`result[0] or 0`, then `open_count + 1`),
  overwrites `opened_at` / `user_agent` / `ip_address`, and always returns the
  fixed 1x1 GIF pixel with mimetype `image/gif`.
* `track_link_click` (lines 272-317): `GET /click/<link_id>` — looks up the
  record, increments `click_count`, sets `last_clicked`, overwrites
  `user_agent` / `ip_address`, then redirects to the stored `original_url`;
  returns `("Link not found", 404)` on a miss and
  `("Error processing link", 500)` when an exception occurs in the handler.

Tables are modelled as association lists keyed by the identifier; nullable
SQL columns are `Option` fields.  Timestamps (`datetime.now()`) are abstract
`Nat` values carried by the event.  Python integers are `Int`.
-/

/-- A timestamp, abstracting the `datetime.now()` values stored in
`TIMESTAMP` columns. -/
abbrev Timestamp := Nat

/-- A row of the `email_tracking` table (schema at lines 24-35 of
`tracking_server.py`).  `tracking_id` is the key of the association list and
is kept outside the record.  All non-key columns are nullable in SQLite, so
each is an `Option`. -/
structure EmailRecord where
  recipient_email : Option String
  subject : Option String
  sent_at : Option Timestamp
  opened_at : Option Timestamp
  open_count : Option Int
  user_agent : Option String
  ip_address : Option String
  deriving Repr, DecidableEq

/-- A row of the `link_tracking` table (schema at lines 42-54). -/
structure LinkRecord where
  original_url : Option String
  email_id : Option String
  recipient_email : Option String
  created_at : Option Timestamp
  click_count : Option Int
  last_clicked : Option Timestamp
  user_agent : Option String
  ip_address : Option String
  deriving Repr, DecidableEq

/-- The `email_tracking` table: rows keyed by `tracking_id`. -/
abbrev EmailStore := List (String × EmailRecord)

/-- The `link_tracking` table: rows keyed by `link_id`. -/
abbrev LinkStore := List (String × LinkRecord)

/-- `SELECT ... FROM email_tracking WHERE tracking_id = ?` followed by
`fetchone()` (line 96-97): the first row whose key matches, or `none`. -/
def lookupEmail : EmailStore → String → Option EmailRecord
  | [], _ => none
  | (k, r) :: rest, id => if k = id then some r else lookupEmail rest id

/-- `SELECT ... FROM link_tracking WHERE link_id = ?` followed by
`fetchone()` (line 287-288). -/
def lookupLink : LinkStore → String → Option LinkRecord
  | [], _ => none
  | (k, r) :: rest, id => if k = id then some r else lookupLink rest id

/-- The request metadata an open event carries: the `datetime.now()` value
used for `opened_at`, plus `User-Agent` and `request.remote_addr`
(lines 84-85, 110). -/
structure OpenEvent where
  timestamp : Timestamp
  user_agent : String
  ip_address : String
  deriving Repr, DecidableEq

/-- The request metadata a click event carries (lines 276-277, 301). -/
structure ClickEvent where
  timestamp : Timestamp
  user_agent : String
  ip_address : String
  deriving Repr, DecidableEq

/-- The effect of the `UPDATE email_tracking SET opened_at = ?, open_count = ?,
user_agent = ?, ip_address = ? WHERE tracking_id = ?` statement
(lines 103-110) on one row. -/
def openUpdate (r : EmailRecord) (ev : OpenEvent) (newCount : Int) : EmailRecord :=
  { r with opened_at := some ev.timestamp, open_count := some newCount,
           user_agent := some ev.user_agent, ip_address := some ev.ip_address }

/-- The `UPDATE ... WHERE tracking_id = ?` statement over the whole table:
every row whose key matches is rewritten by `openUpdate`, every other row is
kept. -/
def updateEmail : EmailStore → String → OpenEvent → Int → EmailStore
  | [], _, _, _ => []
  | (k, r) :: rest, id, ev, newCount =>
      (if k = id then (k, openUpdate r ev newCount) else (k, r)) ::
        updateEmail rest id ev newCount

/-- The effect of the `UPDATE link_tracking SET click_count = ?,
last_clicked = ?, user_agent = ?, ip_address = ? WHERE link_id = ?` statement
(lines 294-301) on one row. -/
def clickUpdate (r : LinkRecord) (ev : ClickEvent) (newCount : Int) : LinkRecord :=
  { r with click_count := some newCount, last_clicked := some ev.timestamp,
           user_agent := some ev.user_agent, ip_address := some ev.ip_address }

/-- The `UPDATE ... WHERE link_id = ?` statement over the whole table. -/
def updateLink : LinkStore → String → ClickEvent → Int → LinkStore
  | [], _, _, _ => []
  | (k, r) :: rest, id, ev, newCount =>
      (if k = id then (k, clickUpdate r ev newCount) else (k, r)) ::
        updateLink rest id ev newCount

/-- `TRACKING_PIXEL` (line 18): the 42 bytes of the 1x1 transparent GIF. -/
def TRACKING_PIXEL : List Nat :=
  [0x47, 0x49, 0x46, 0x38, 0x39, 0x61, 0x01, 0x00, 0x01, 0x00, 0x80, 0x00,
   0x00, 0x00, 0x00, 0x00, 0x00, 0x00, 0x00, 0x21, 0xf9, 0x04, 0x01, 0x00,
   0x00, 0x00, 0x00, 0x2c, 0x00, 0x00, 0x00, 0x00, 0x01, 0x00, 0x01, 0x00,
   0x00, 0x02, 0x02, 0x44, 0x01, 0x00, 0x3b]

/-- The possible Flask return values of the two handlers:
`Response(TRACKING_PIXEL, mimetype='image/gif')` (line 123),
`redirect(original_url)` (line 310, a 302), and the plain `(body, status)`
tuples `("Link not found", 404)` (line 313) and
`("Error processing link", 500)` (line 317). -/
inductive HttpResponse where
  | pixelResponse (body : List Nat) (mimetype : String)
  | redirectResponse (location : Option String)
  | plainResponse (body : String) (status : Nat)
  deriving Repr, DecidableEq

/-- Python `result[0] or 0` (line 100): `None` is read as `0`; any integer
(including `0` itself) is returned unchanged. -/
def orZero : Option Int → Int
  | none => 0
  | some n => n

/-- The `track_email` handler (lines 79-123), with the database state passed
explicitly and the request metadata bundled in `ev`.  If the `SELECT` at
line 96 finds a row, the handler computes `open_count = result[0] or 0` and
runs the `UPDATE` with `open_count + 1`; otherwise the table is untouched.
Either way the fixed pixel is returned (line 123). -/
def track_email (db : EmailStore) (tracking_id : String) (ev : OpenEvent) :
    EmailStore × HttpResponse :=
  match lookupEmail db tracking_id with
  | some r =>
      let open_count := orZero r.open_count
      (updateEmail db tracking_id ev (open_count + 1),
       .pixelResponse TRACKING_PIXEL "image/gif")
  | none => (db, .pixelResponse TRACKING_PIXEL "image/gif")

/-- The `track_link_click` handler (lines 272-317).  If the `SELECT` at
line 287 finds a row, the handler evaluates `click_count + 1`: when the
stored `click_count` is NULL this is Python `None + 1`, which raises
`TypeError` before the `UPDATE` executes; the `except` at line 315 turns it
into `("Error processing link", 500)` with the table untouched.  With an
integer count the row is updated and the handler returns
`redirect(original_url)`; the redirect carries the stored value unchanged
(kept as the raw nullable column).  On a miss the handler returns
`("Link not found", 404)`. -/
def track_link_click (db : LinkStore) (link_id : String) (ev : ClickEvent) :
    LinkStore × HttpResponse :=
  match lookupLink db link_id with
  | some r =>
      match r.click_count with
      | some c =>
          (updateLink db link_id ev (c + 1), .redirectResponse r.original_url)
      | none => (db, .plainResponse "Error processing link" 500)
  | none => (db, .plainResponse "Link not found" 404)

/-- `track_email` folded over a list of sequential open events for one
identifier (responses discarded): the state after N sequential requests. -/
def applyOpens (db : EmailStore) (id : String) (evs : List OpenEvent) : EmailStore :=
  evs.foldl (fun d ev => (track_email d id ev).1) db

/-- `track_link_click` folded over a list of sequential click events for one
identifier (responses discarded). -/
def applyClicks (db : LinkStore) (id : String) (evs : List ClickEvent) : LinkStore :=
  evs.foldl (fun d ev => (track_link_click d id ev).1) db

/-! ### Interleaving semantics for concurrent open events

`track_email` is not one atomic store operation: it issues a `SELECT`
(line 96) and then a separate `UPDATE` computed from the fetched value
(lines 103-110), on a per-request SQLite connection with no transaction
spanning the two statements.  Concurrent requests may therefore interleave
between the two.  A handler is modelled as a two-step program over the
shared table: the read step and the write step. -/

/-- Where a concurrently running `track_email` handler stands: before its
`SELECT`, holding the fetched `open_count` cell (`none` when no row matched),
or finished. -/
inductive HandlerPhase where
  | start
  | fetchedRow (result : Option (Option Int))
  | done
  deriving Repr, DecidableEq

/-- One in-flight `track_email` request: its identifier, its request
metadata, and how far it has executed. -/
structure OpenHandler where
  tracking_id : String
  ev : OpenEvent
  phase : HandlerPhase
  deriving Repr, DecidableEq

/-- One atomic step of an in-flight `track_email` request against the shared
table: the `SELECT` of line 96, then — when a row was fetched — the `UPDATE`
of lines 103-110 with `(result[0] or 0) + 1`, or nothing when the row was
absent (lines 114-115). -/
def stepHandler (db : EmailStore) (h : OpenHandler) : EmailStore × OpenHandler :=
  match h.phase with
  | .start =>
      (db, { h with phase := .fetchedRow ((lookupEmail db h.tracking_id).map
              EmailRecord.open_count) })
  | .fetchedRow (some oc) =>
      (updateEmail db h.tracking_id h.ev (orZero oc + 1), { h with phase := .done })
  | .fetchedRow none => (db, { h with phase := .done })
  | .done => (db, h)

/-- Run a schedule: at each tick, the named in-flight handler executes its
next atomic step against the shared table.  Out-of-range indices are
skipped. -/
def runSchedule : EmailStore → List OpenHandler → List Nat → EmailStore × List OpenHandler
  | db, hs, [] => (db, hs)
  | db, hs, i :: rest =>
      match hs.get? i with
      | some h =>
          let p := stepHandler db h
          runSchedule p.1 (hs.set i p.2) rest
      | none => runSchedule db hs rest

/-! ### Store-layer failures

The handlers wrap all their SQLite work in `try: ... except:`; to state what
they do when the store layer itself fails (connection, read or write raising
`sqlite3` errors), the store operations are modelled as fallible: each either
returns or raises an error message. -/

/-- The open pipeline's store operations as fallible calls: the `SELECT` of
line 96 (returning the matched row or `none`) and the `UPDATE`-and-`commit`
of lines 103-112, either of which may raise. -/
structure FallibleEmailStore where
  lookup : String → Except String (Option EmailRecord)
  update : String → OpenEvent → Int → Except String Unit

/-- The click pipeline's store operations as fallible calls: the `SELECT` of
line 287 and the `UPDATE`-and-`commit` of lines 294-303. -/
structure FallibleLinkStore where
  lookup : String → Except String (Option LinkRecord)
  update : String → ClickEvent → Int → Except String Unit

/-- `track_email` (lines 79-123) against a fallible store: the `try:` body
runs the lookup and, on a hit, the update with `(result[0] or 0) + 1`; the
`except` at lines 119-120 only logs; line 123 returns the pixel on every
path. -/
def track_email_fallible (store : FallibleEmailStore) (tracking_id : String)
    (ev : OpenEvent) : HttpResponse :=
  let attempt : Except String Unit := do
    let result ← store.lookup tracking_id
    match result with
    | some r => store.update tracking_id ev (orZero r.open_count + 1)
    | none => pure ()
  match attempt with
  | .ok _ => .pixelResponse TRACKING_PIXEL "image/gif"
  | .error _ => .pixelResponse TRACKING_PIXEL "image/gif"

/-- `track_link_click` (lines 272-317) against a fallible store: the `try:`
body runs the lookup; on a hit with an integer count it runs the update and
then returns the redirect; a NULL count raises (`None + 1`); a miss returns
the 404; the `except` at lines 315-317 turns any raise into the 500. -/
def track_link_click_fallible (store : FallibleLinkStore) (link_id : String)
    (ev : ClickEvent) : HttpResponse :=
  let attempt : Except String HttpResponse := do
    let result ← store.lookup link_id
    match result with
    | some r =>
        match r.click_count with
        | some c => do
            store.update link_id ev (c + 1)
            pure (.redirectResponse r.original_url)
        | none => .error "TypeError: unsupported operand"
    | none => pure (.plainResponse "Link not found" 404)
  match attempt with
  | .ok resp => resp
  | .error _ => .plainResponse "Error processing link" 500

/-- How many of the open events, applied sequentially from `db`, find an
existing row and therefore run their `UPDATE` (the `if result:` branch,
lines 99-113). -/
def countSuccessfulOpens (db : EmailStore) (id : String) : List OpenEvent → Nat
  | [] => 0
  | ev :: rest =>
      (match lookupEmail db id with
       | some _ => 1
       | none => 0) + countSuccessfulOpens (track_email db id ev).1 id rest

/-- How many of the click events, applied sequentially from `db`, end in a
redirect — exactly the requests whose `UPDATE` ran and committed
(lines 290-310). -/
def countSuccessfulClicks (db : LinkStore) (id : String) : List ClickEvent → Nat
  | [] => 0
  | ev :: rest =>
      (match (track_link_click db id ev).2 with
       | .redirectResponse _ => 1
       | _ => 0) + countSuccessfulClicks (track_link_click db id ev).1 id rest

/-- A one-row `email_tracking` table whose record starts with open count 0,
used to exhibit the race between two concurrent open requests. -/
def raceStore : EmailStore :=
  [("abc123", { recipient_email := some "a@x.com", subject := some "hello",
                sent_at := some 0, opened_at := none, open_count := some 0,
                user_agent := none, ip_address := none })]

/-- Two concurrent `track_email` requests for the same identifier
`"abc123"`, both still before their `SELECT`. -/
def raceHandlers : List OpenHandler :=
  [{ tracking_id := "abc123", ev := ⟨1, "UA1", "1.1.1.1"⟩, phase := .start },
   { tracking_id := "abc123", ev := ⟨2, "UA2", "2.2.2.2"⟩, phase := .start }]

/-- A sample tracking record as the upstream sender would insert it: open
count 0, never opened.  Used by the concrete witnesses. -/
def sampleEmail : EmailRecord :=
  { recipient_email := some "a@x.com", subject := some "hello",
    sent_at := some 0, opened_at := none, open_count := some 0,
    user_agent := none, ip_address := none }

/-- A sample link record as the upstream sender would insert it: click
count 0, never clicked. -/
def sampleLink : LinkRecord :=
  { original_url := some "https://example.com/promo", email_id := some "e1",
    recipient_email := some "a@x.com", created_at := some 0,
    click_count := some 0, last_clicked := none,
    user_agent := none, ip_address := none }

/-- A link record whose `click_count` column is NULL, as an upstream insert
that omits the column's value can produce (the schema only declares
`DEFAULT 0`, it does not forbid NULL). -/
def nullCountLink : LinkRecord :=
  { original_url := some "https://example.com/promo", email_id := some "e1",
    recipient_email := some "a@x.com", created_at := some 0,
    click_count := none, last_clicked := none,
    user_agent := none, ip_address := none }

/-- A tracking record whose `open_count` column is NULL (the schema declares
`DEFAULT 0` but does not forbid NULL). -/
def nullCountEmail : EmailRecord :=
  { recipient_email := some "a@x.com", subject := some "hello",
    sent_at := some 0, opened_at := none, open_count := none,
    user_agent := none, ip_address := none }

/-- A store whose every operation raises, standing for an unreachable or
unwritable database file. -/
def brokenLinkStore : FallibleLinkStore :=
  { lookup := fun _ => .error "unable to open database file",
    update := fun _ _ _ => .error "unable to open database file" }

/-! ### Interaction of lookup and update -/

/-- Reading back after an `UPDATE`: looking up the updated key sees the first
matching row rewritten by `openUpdate`; any other key is untouched. -/
theorem lookupEmail_updateEmail (db : EmailStore) (id id' : String) (ev : OpenEvent)
    (c : Int) :
    lookupEmail (updateEmail db id ev c) id' =
      if id' = id then (lookupEmail db id').map (openUpdate · ev c)
      else lookupEmail db id' := by
  induction db with
  | nil => simp [lookupEmail, updateEmail]
  | cons kr rest ih =>
      obtain ⟨k, r⟩ := kr
      by_cases hk : k = id
      · subst hk
        show lookupEmail ((if k = k then (k, openUpdate r ev c) else (k, r)) ::
          updateEmail rest k ev c) id' = _
        rw [if_pos rfl]
        by_cases hk' : k = id'
        · subst hk'
          simp [lookupEmail]
        · simp [lookupEmail, hk', Ne.symm hk', ih]
      · show lookupEmail ((if k = id then (k, openUpdate r ev c) else (k, r)) ::
          updateEmail rest id ev c) id' = _
        rw [if_neg hk]
        by_cases hk' : k = id'
        · subst hk'
          simp [lookupEmail, hk]
        · simp [lookupEmail, hk', ih]

/-- Reading back after a link `UPDATE`. -/
theorem lookupLink_updateLink (db : LinkStore) (id id' : String) (ev : ClickEvent)
    (c : Int) :
    lookupLink (updateLink db id ev c) id' =
      if id' = id then (lookupLink db id').map (clickUpdate · ev c)
      else lookupLink db id' := by
  induction db with
  | nil => simp [lookupLink, updateLink]
  | cons kr rest ih =>
      obtain ⟨k, r⟩ := kr
      by_cases hk : k = id
      · subst hk
        show lookupLink ((if k = k then (k, clickUpdate r ev c) else (k, r)) ::
          updateLink rest k ev c) id' = _
        rw [if_pos rfl]
        by_cases hk' : k = id'
        · subst hk'
          simp [lookupLink]
        · simp [lookupLink, hk', Ne.symm hk', ih]
      · show lookupLink ((if k = id then (k, clickUpdate r ev c) else (k, r)) ::
          updateLink rest id ev c) id' = _
        rw [if_neg hk]
        by_cases hk' : k = id'
        · subst hk'
          simp [lookupLink, hk]
        · simp [lookupLink, hk', ih]

/-- Coherence of the interleaving model: a handler that runs its two steps
back to back, with no interleaved writer, changes the table exactly as the
sequential `track_email` does. -/
theorem stepHandler_twice_eq_track_email (db : EmailStore) (id : String)
    (ev : OpenEvent) :
    (stepHandler (stepHandler db { tracking_id := id, ev := ev, phase := .start }).1
        (stepHandler db { tracking_id := id, ev := ev, phase := .start }).2).1 =
      (track_email db id ev).1 := by
  cases hl : lookupEmail db id <;>
    simp [stepHandler, track_email, hl]

/-- `x or 0` on a present integer is the integer itself. -/
theorem orZero_some (x : Int) : orZero (some x) = x := rfl

/-- `None or 0` is 0. -/
theorem orZero_none : orZero none = 0 := rfl

/-- Workhorse for sequential open events: starting from a row with integer
open count `c`, a nonempty event list ends with the count at
`c + evs.length`, the opened timestamp at the last event's timestamp, and
the creation-time columns untouched. -/
theorem applyOpens_lookup (id : String) :
    ∀ (evs : List OpenEvent) (db : EmailStore) (r : EmailRecord) (c : Int)
      (evLast : OpenEvent),
      lookupEmail db id = some r → r.open_count = some c →
      evs.getLast? = some evLast →
      ∃ r', lookupEmail (applyOpens db id evs) id = some r' ∧
        r'.open_count = some (c + evs.length) ∧
        r'.opened_at = some evLast.timestamp ∧
        r'.recipient_email = r.recipient_email ∧
        r'.subject = r.subject ∧
        r'.sent_at = r.sent_at := by
  intro evs
  induction evs with
  | nil => intro db r c evLast hr hc hlast; simp at hlast
  | cons ev rest ih =>
      intro db r c evLast hr hc hlast
      have hstep : (track_email db id ev).1 = updateEmail db id ev (c + 1) := by
        simp [track_email, hr, hc, orZero]
      have hlook1 : lookupEmail (updateEmail db id ev (c + 1)) id =
          some (openUpdate r ev (c + 1)) := by
        rw [lookupEmail_updateEmail, if_pos rfl, hr, Option.map_some']
      have happly : applyOpens db id (ev :: rest) =
          applyOpens (updateEmail db id ev (c + 1)) id rest := by
        simp [applyOpens, List.foldl, hstep]
      cases rest with
      | nil =>
          simp only [List.getLast?_singleton, Option.some.injEq] at hlast
          subst hlast
          refine ⟨openUpdate r ev (c + 1), ?_, ?_, rfl, rfl, rfl, rfl⟩
          · rw [happly]; simpa [applyOpens] using hlook1
          · simp [openUpdate]
      | cons ev2 rest2 =>
          have hlast' : (ev2 :: rest2).getLast? = some evLast := by
            rw [← hlast]; simp [List.getLast?]
          obtain ⟨r', hr', hcount, hopened, hrec, hsubj, hsent⟩ :=
            ih (updateEmail db id ev (c + 1)) (openUpdate r ev (c + 1)) (c + 1)
              evLast hlook1 rfl hlast'
          refine ⟨r', by rw [happly]; exact hr', ?_, hopened, hrec, hsubj, hsent⟩
          rw [hcount]
          congr 1
          simp only [List.length_cons]
          push_cast
          ring

/-- Invariant carrier for the open pipeline: if the row's count reads as `n`
(NULL reads as 0, per `result[0] or 0`) and its opened timestamp is non-null
exactly when `n > 0`, then after any further open events the count reads as
`n` plus the number of successful events, and the timestamp is non-null
exactly when the count is positive. -/
theorem applyOpens_invariant (id : String) :
    ∀ (evs : List OpenEvent) (db : EmailStore) (r : EmailRecord) (n : Nat),
      lookupEmail db id = some r →
      orZero r.open_count = (n : Int) →
      (r.opened_at ≠ none ↔ 0 < n) →
      ∃ r', lookupEmail (applyOpens db id evs) id = some r' ∧
        orZero r'.open_count = ((n + countSuccessfulOpens db id evs : Nat) : Int) ∧
        (r'.opened_at ≠ none ↔ 0 < orZero r'.open_count) := by
  intro evs
  induction evs with
  | nil =>
      intro db r n hr hn hiff
      refine ⟨r, by simpa [applyOpens] using hr, ?_, ?_⟩
      · simp [countSuccessfulOpens, hn]
      · rw [hn]
        constructor
        · intro h; exact_mod_cast hiff.mp h
        · intro h; exact hiff.mpr (by exact_mod_cast h)
  | cons ev rest ih =>
      intro db r n hr hn hiff
      have hstep : (track_email db id ev).1
          = updateEmail db id ev (orZero r.open_count + 1) := by
        simp [track_email, hr]
      have hlook1 : lookupEmail (updateEmail db id ev (orZero r.open_count + 1)) id
          = some (openUpdate r ev (orZero r.open_count + 1)) := by
        rw [lookupEmail_updateEmail, if_pos rfl, hr, Option.map_some']
      have hn1 : orZero (openUpdate r ev (orZero r.open_count + 1)).open_count
          = ((n + 1 : Nat) : Int) := by
        rw [show (openUpdate r ev (orZero r.open_count + 1)).open_count
            = some (orZero r.open_count + 1) from rfl, orZero_some, hn]
        push_cast
        ring
      have hiff1 : (openUpdate r ev (orZero r.open_count + 1)).opened_at ≠ none
          ↔ 0 < n + 1 := by
        simp [openUpdate]
      obtain ⟨r', hr', hcnt, hiff'⟩ :=
        ih (updateEmail db id ev (orZero r.open_count + 1))
          (openUpdate r ev (orZero r.open_count + 1)) (n + 1) hlook1 hn1 hiff1
      have happly : applyOpens db id (ev :: rest)
          = applyOpens (updateEmail db id ev (orZero r.open_count + 1)) id rest := by
        simp [applyOpens, List.foldl, hstep]
      refine ⟨r', by rw [happly]; exact hr', ?_, hiff'⟩
      rw [hcnt]
      have hcount : countSuccessfulOpens db id (ev :: rest)
          = 1 + countSuccessfulOpens
              (updateEmail db id ev (orZero r.open_count + 1)) id rest := by
        simp [countSuccessfulOpens, hr, hstep]
      rw [hcount]
      congr 1
      omega

/-- Invariant carrier for the click pipeline: a row whose count is the
integer `n` (or NULL, in which case every event fails and `n = 0`) with
last-clicked non-null exactly when `n > 0` keeps the invariant through any
further click events. -/
theorem applyClicks_invariant (id : String) :
    ∀ (evs : List ClickEvent) (db : LinkStore) (s : LinkRecord) (n : Nat),
      lookupLink db id = some s →
      (s.click_count = some (n : Int) ∨ (s.click_count = none ∧ n = 0)) →
      (0 < n ↔ s.last_clicked ≠ none) →
      ∃ s', lookupLink (applyClicks db id evs) id = some s' ∧
        orZero s'.click_count = ((n + countSuccessfulClicks db id evs : Nat) : Int) ∧
        (0 < orZero s'.click_count ↔ s'.last_clicked ≠ none) := by
  intro evs
  induction evs with
  | nil =>
      intro db s n hs hn hiff
      refine ⟨s, by simpa [applyClicks] using hs, ?_, ?_⟩
      · rcases hn with h | ⟨h, rfl⟩
        · rw [h, orZero_some]
          simp [countSuccessfulClicks]
        · rw [h, orZero_none]
          simp [countSuccessfulClicks]
      · rcases hn with h | ⟨h, rfl⟩
        · rw [h, orZero_some]
          constructor
          · intro hpos; exact hiff.mp (by exact_mod_cast hpos)
          · intro hne; exact_mod_cast hiff.mpr hne
        · rw [h, orZero_none]
          simpa using hiff
  | cons ev rest ih =>
      intro db s n hs hn hiff
      rcases hn with h | ⟨h, rfl⟩
      · have hstep : track_link_click db id ev
            = (updateLink db id ev ((n : Int) + 1),
               .redirectResponse s.original_url) := by
          simp [track_link_click, hs, h]
        have hlook1 : lookupLink (updateLink db id ev ((n : Int) + 1)) id
            = some (clickUpdate s ev ((n : Int) + 1)) := by
          rw [lookupLink_updateLink, if_pos rfl, hs, Option.map_some']
        have hn1 : (clickUpdate s ev ((n : Int) + 1)).click_count
            = some ((n + 1 : Nat) : Int) ∨
            ((clickUpdate s ev ((n : Int) + 1)).click_count = none ∧ n + 1 = 0) := by
          left; simp [clickUpdate]
        have hiff1 : 0 < n + 1
            ↔ (clickUpdate s ev ((n : Int) + 1)).last_clicked ≠ none := by
          simp [clickUpdate]
        obtain ⟨s', hs', hcnt, hiff'⟩ :=
          ih (updateLink db id ev ((n : Int) + 1))
            (clickUpdate s ev ((n : Int) + 1)) (n + 1) hlook1 hn1 hiff1
        have happly : applyClicks db id (ev :: rest)
            = applyClicks (updateLink db id ev ((n : Int) + 1)) id rest := by
          simp [applyClicks, List.foldl, hstep]
        refine ⟨s', by rw [happly]; exact hs', ?_, hiff'⟩
        rw [hcnt]
        have hcount : countSuccessfulClicks db id (ev :: rest)
            = 1 + countSuccessfulClicks (updateLink db id ev ((n : Int) + 1)) id
                rest := by
          simp [countSuccessfulClicks, hstep]
        rw [hcount]
        congr 1
        omega
      · have hstep : track_link_click db id ev
            = (db, .plainResponse "Error processing link" 500) := by
          simp [track_link_click, hs, h]
        obtain ⟨s', hs', hcnt, hiff'⟩ := ih db s 0 hs (Or.inr ⟨h, rfl⟩) hiff
        have happly : applyClicks db id (ev :: rest) = applyClicks db id rest := by
          simp [applyClicks, List.foldl, hstep]
        refine ⟨s', by rw [happly]; exact hs', ?_, hiff'⟩
        rw [hcnt]
        have hcount : countSuccessfulClicks db id (ev :: rest)
            = countSuccessfulClicks db id rest := by
          simp [countSuccessfulClicks, hstep]
        rw [hcount]

/-! ### Claim C1 -/

/-- C1: the spec demands that M concurrent open events against one
identifier serialize so the final open count is the starting count plus M
(no lost updates).  The handler is a non-atomic read-modify-write: the
`SELECT` (line 96) and the `UPDATE` with the Python-computed `open_count + 1`
(lines 103-110) are separate statements on a per-request connection with no
enclosing transaction.  Under the interleaving in which both requests run
their `SELECT` before either `UPDATE` (schedule `[0, 1, 0, 1]`), both
requests complete their update path, yet a record starting at open count 0
ends at 1, not 2 — one accepted event is lost.  The serial schedule
`[0, 0, 1, 1]` does end at 2, confirming the loss comes from the
interleaving. -/
theorem concurrent_open_events_lose_update :
    (lookupEmail (runSchedule raceStore raceHandlers [0, 1, 0, 1]).1 "abc123").map
        EmailRecord.open_count = some (some 1) ∧
    (∀ h ∈ (runSchedule raceStore raceHandlers [0, 1, 0, 1]).2,
        h.phase = HandlerPhase.done) ∧
    (lookupEmail (runSchedule raceStore raceHandlers [0, 0, 1, 1]).1 "abc123").map
        EmailRecord.open_count = some (some 2) := by
  exact ⟨by decide, by decide, by decide⟩

/-! ### Claim C2 -/

/-- C2: for an existing tracking record whose open count starts at 0, N
sequential open events end with open count N and opened timestamp equal to
the last event's timestamp; moreover after every prefix of the events the
count equals the prefix's length, so each successful open event increments
it by exactly 1. -/
theorem sequential_opens_count (db : EmailStore) (id : String)
    (r : EmailRecord) (evs : List OpenEvent) (evLast : OpenEvent)
    (hr : lookupEmail db id = some r) (h0 : r.open_count = some 0)
    (hlast : evs.getLast? = some evLast) :
    ((lookupEmail (applyOpens db id evs) id).map EmailRecord.open_count
        = some (some (evs.length : Int))) ∧
    ((lookupEmail (applyOpens db id evs) id).map EmailRecord.opened_at
        = some (some evLast.timestamp)) ∧
    (∀ pre suf : List OpenEvent, evs = pre ++ suf →
      (lookupEmail (applyOpens db id pre) id).map EmailRecord.open_count
        = some (some (pre.length : Int))) := by
  obtain ⟨r', hr', hcount, hopen, -, -, -⟩ :=
    applyOpens_lookup id evs db r 0 evLast hr h0 hlast
  refine ⟨?_, ?_, ?_⟩
  · rw [hr', Option.map_some', hcount]
    norm_num
  · rw [hr', Option.map_some', hopen]
  · intro pre suf hsplit
    cases pre with
    | nil => simp [applyOpens, hr, h0]
    | cons p ps =>
        have hne : p :: ps ≠ [] := by simp
        obtain ⟨r'', hr'', hcount'', -, -, -, -⟩ :=
          applyOpens_lookup id (p :: ps) db r 0 ((p :: ps).getLast hne) hr h0
            (List.getLast?_eq_getLast _ hne)
        rw [hr'', Option.map_some', hcount'']
        norm_num

/-- C2 witness: two open events on `sampleEmail` (count 0) end with count 2
and opened timestamp 2. -/
theorem sequential_opens_count_witness :
    ((lookupEmail (applyOpens [("t1", sampleEmail)] "t1"
        [⟨1, "UA", "ip"⟩, ⟨2, "UA", "ip"⟩]) "t1").map EmailRecord.open_count
        = some (some 2)) ∧
    ((lookupEmail (applyOpens [("t1", sampleEmail)] "t1"
        [⟨1, "UA", "ip"⟩, ⟨2, "UA", "ip"⟩]) "t1").map EmailRecord.opened_at
        = some (some 2)) ∧
    (∀ pre suf : List OpenEvent,
      [⟨1, "UA", "ip"⟩, ⟨2, "UA", "ip"⟩] = pre ++ suf →
      (lookupEmail (applyOpens [("t1", sampleEmail)] "t1" pre) "t1").map
          EmailRecord.open_count = some (some (pre.length : Int))) :=
  sequential_opens_count [("t1", sampleEmail)] "t1" sampleEmail
    [⟨1, "UA", "ip"⟩, ⟨2, "UA", "ip"⟩] ⟨2, "UA", "ip"⟩ rfl rfl rfl

/-- C3 counterexample: the record for `"lnk0"` exists but its click count is
NULL, so `click_count + 1` raises `TypeError` and the handler answers 500
with the row untouched — not a redirect, and no increment. -/
theorem click_null_count_not_redirect :
    lookupLink [("lnk0", nullCountLink)] "lnk0" = some nullCountLink ∧
    track_link_click [("lnk0", nullCountLink)] "lnk0" ⟨7, "UA", "1.1.1.1"⟩
      = ([("lnk0", nullCountLink)], .plainResponse "Error processing link" 500) := by
  exact ⟨by decide, by decide⟩

/-- C3 (amended): for every identifier with an existing link record whose
click count is non-null, one click event yields exactly the same record with
click count incremented by 1, last-clicked set to the event's timestamp and
the last-seen fields overwritten — so the stored original URL is unchanged —
and the response is a redirect to that stored URL. -/
theorem click_existing_record (db : LinkStore) (id : String) (r : LinkRecord)
    (c : Int) (ev : ClickEvent)
    (hr : lookupLink db id = some r) (hc : r.click_count = some c) :
    (track_link_click db id ev).2 = .redirectResponse r.original_url ∧
    lookupLink (track_link_click db id ev).1 id =
      some { r with click_count := some (c + 1),
                    last_clicked := some ev.timestamp,
                    user_agent := some ev.user_agent,
                    ip_address := some ev.ip_address } := by
  have hfst : (track_link_click db id ev).1 = updateLink db id ev (c + 1) := by
    simp [track_link_click, hr, hc]
  refine ⟨by simp [track_link_click, hr, hc], ?_⟩
  rw [hfst, lookupLink_updateLink, if_pos rfl, hr, Option.map_some']
  rfl

/-- C3 witness: one click on `sampleLink` (count 0) redirects to the stored
URL and leaves the row at count 1, last-clicked 7. -/
theorem click_existing_record_witness :
    (track_link_click [("lnk1", sampleLink)] "lnk1" ⟨7, "UA", "1.1.1.1"⟩).2
      = .redirectResponse sampleLink.original_url ∧
    lookupLink (track_link_click [("lnk1", sampleLink)] "lnk1"
        ⟨7, "UA", "1.1.1.1"⟩).1 "lnk1" =
      some { sampleLink with click_count := some (0 + 1),
                             last_clicked := some 7,
                             user_agent := some "UA",
                             ip_address := some "1.1.1.1" } :=
  click_existing_record [("lnk1", sampleLink)] "lnk1" sampleLink 0
    ⟨7, "UA", "1.1.1.1"⟩ rfl rfl

/-- C4: for an identifier with no tracking record, any number of open events
leaves the whole table exactly as it was (no row created, no row mutated),
and every single open request answers the fixed pixel with the image
content-type. -/
theorem open_unknown_id (db : EmailStore) (id : String) (evs : List OpenEvent)
    (hmiss : lookupEmail db id = none) :
    applyOpens db id evs = db ∧
    ∀ ev : OpenEvent, track_email db id ev
      = (db, .pixelResponse TRACKING_PIXEL "image/gif") := by
  constructor
  · induction evs with
    | nil => rfl
    | cons ev rest ih =>
        have hstep : (track_email db id ev).1 = db := by
          simp [track_email, hmiss]
        calc applyOpens db id (ev :: rest)
            = applyOpens (track_email db id ev).1 id rest := by
              simp [applyOpens, List.foldl]
          _ = applyOpens db id rest := by rw [hstep]
          _ = db := ih
  · intro ev
    simp [track_email, hmiss]

/-- C4 witness: three open events against an empty table leave it empty and
each answers the pixel. -/
theorem open_unknown_id_witness :
    applyOpens [] "ghost" [⟨1, "U", "i"⟩, ⟨2, "U", "i"⟩, ⟨3, "U", "i"⟩] = [] ∧
    ∀ ev : OpenEvent, track_email [] "ghost" ev
      = ([], .pixelResponse TRACKING_PIXEL "image/gif") :=
  open_unknown_id [] "ghost" [⟨1, "U", "i"⟩, ⟨2, "U", "i"⟩, ⟨3, "U", "i"⟩] rfl

/-- C5: a click event against an identifier with no link record answers 404
with body "Link not found" and returns the table exactly as it was: no row
created, no row mutated. -/
theorem click_unknown_id (db : LinkStore) (id : String) (ev : ClickEvent)
    (hmiss : lookupLink db id = none) :
    track_link_click db id ev = (db, .plainResponse "Link not found" 404) := by
  simp [track_link_click, hmiss]

/-- C5 witness: a click on a table that holds only `"lnk1"` but asks for
`"ghost"` answers 404 and leaves the table as it was. -/
theorem click_unknown_id_witness :
    track_link_click [("lnk1", sampleLink)] "ghost" ⟨9, "U", "i"⟩
      = ([("lnk1", sampleLink)], .plainResponse "Link not found" 404) :=
  click_unknown_id [("lnk1", sampleLink)] "ghost" ⟨9, "U", "i"⟩ (by decide)

/-- C6: whatever the store layer does — lookup hit, miss, or a raise from
any of its operations — the open tracker's response is the fixed pixel; the
failure is never surfaced in the response. -/
theorem open_tracker_absorbs_store_failure (store : FallibleEmailStore)
    (id : String) (ev : OpenEvent) :
    track_email_fallible store id ev
      = .pixelResponse TRACKING_PIXEL "image/gif" := by
  unfold track_email_fallible
  generalize (do
    let result ← store.lookup id
    match result with
    | some r => store.update id ev (orZero r.open_count + 1)
    | none => pure () : Except String Unit) = attempt
  cases attempt <;> rfl

/-- C7: when the store fails under the click tracker — its lookup raises, or
the row is found and its update raises — the response is the 500
"Error processing link", never a redirect. -/
theorem click_tracker_store_failure_returns_500 (store : FallibleLinkStore)
    (id : String) (ev : ClickEvent)
    (hfail : (∃ e, store.lookup id = .error e) ∨
      (∃ r c e, store.lookup id = .ok (some r) ∧ r.click_count = some c ∧
        store.update id ev (c + 1) = .error e)) :
    track_link_click_fallible store id ev
      = .plainResponse "Error processing link" 500 ∧
    ∀ loc, track_link_click_fallible store id ev ≠ .redirectResponse loc := by
  have h500 : track_link_click_fallible store id ev
      = .plainResponse "Error processing link" 500 := by
    rcases hfail with ⟨e, he⟩ | ⟨r, c, e, hlook, hc, hup⟩
    · unfold track_link_click_fallible
      simp [he, Bind.bind, Except.bind]
    · unfold track_link_click_fallible
      simp [hlook, hc, hup, Bind.bind, Except.bind, Functor.map, Except.map]
  exact ⟨h500, by intro loc; rw [h500]; intro h; cases h⟩

/-- C7 witness: against the broken store, a click for `"lnk1"` answers the
500 and is not a redirect. -/
theorem click_tracker_store_failure_returns_500_witness :
    track_link_click_fallible brokenLinkStore "lnk1" ⟨3, "UA", "ip"⟩
      = .plainResponse "Error processing link" 500 ∧
    ∀ loc, track_link_click_fallible brokenLinkStore "lnk1" ⟨3, "UA", "ip"⟩
      ≠ .redirectResponse loc :=
  click_tracker_store_failure_returns_500 brokenLinkStore "lnk1" ⟨3, "UA", "ip"⟩
    (Or.inl ⟨"unable to open database file", rfl⟩)

/-! ### Frame conditions and the null-counter asymmetry -/

/-- C8: a successfully applied event leaves the creation-time columns of its
record exactly as they were: the open `UPDATE` (lines 103-110) sets only
`opened_at`, `open_count`, `user_agent`, `ip_address`, so `recipient_email`,
`subject` and `sent_at` keep their prior values; the click `UPDATE`
(lines 294-301) sets only `click_count`, `last_clicked`, `user_agent`,
`ip_address`, so `original_url`, `email_id`, `recipient_email` and
`created_at` keep their prior values. -/
theorem events_preserve_creation_fields
    (edb : EmailStore) (id : String) (r : EmailRecord) (oev : OpenEvent)
    (ldb : LinkStore) (lid : String) (s : LinkRecord) (c : Int) (cev : ClickEvent)
    (hr : lookupEmail edb id = some r)
    (hs : lookupLink ldb lid = some s) (hc : s.click_count = some c) :
    (∃ r', lookupEmail (track_email edb id oev).1 id = some r' ∧
       r'.recipient_email = r.recipient_email ∧ r'.subject = r.subject ∧
       r'.sent_at = r.sent_at) ∧
    (∃ s', lookupLink (track_link_click ldb lid cev).1 lid = some s' ∧
       s'.original_url = s.original_url ∧ s'.email_id = s.email_id ∧
       s'.recipient_email = s.recipient_email ∧ s'.created_at = s.created_at) := by
  constructor
  · have hfst : (track_email edb id oev).1
        = updateEmail edb id oev (orZero r.open_count + 1) := by
      simp [track_email, hr]
    refine ⟨openUpdate r oev (orZero r.open_count + 1), ?_, rfl, rfl, rfl⟩
    rw [hfst, lookupEmail_updateEmail, if_pos rfl, hr, Option.map_some']
  · have hfst : (track_link_click ldb lid cev).1 = updateLink ldb lid cev (c + 1) := by
      simp [track_link_click, hs, hc]
    refine ⟨clickUpdate s cev (c + 1), ?_, rfl, rfl, rfl, rfl⟩
    rw [hfst, lookupLink_updateLink, if_pos rfl, hs, Option.map_some']

/-- C8 witness: one open on `sampleEmail` and one click on `sampleLink`
leave all their creation-time columns as they were. -/
theorem events_preserve_creation_fields_witness :
    (∃ r', lookupEmail (track_email [("t1", sampleEmail)] "t1"
          ⟨4, "UA", "ip"⟩).1 "t1" = some r' ∧
       r'.recipient_email = sampleEmail.recipient_email ∧
       r'.subject = sampleEmail.subject ∧
       r'.sent_at = sampleEmail.sent_at) ∧
    (∃ s', lookupLink (track_link_click [("lnk1", sampleLink)] "lnk1"
          ⟨5, "UA", "ip"⟩).1 "lnk1" = some s' ∧
       s'.original_url = sampleLink.original_url ∧
       s'.email_id = sampleLink.email_id ∧
       s'.recipient_email = sampleLink.recipient_email ∧
       s'.created_at = sampleLink.created_at) :=
  events_preserve_creation_fields [("t1", sampleEmail)] "t1" sampleEmail
    ⟨4, "UA", "ip"⟩ [("lnk1", sampleLink)] "lnk1" sampleLink 0
    ⟨5, "UA", "ip"⟩ rfl rfl rfl

/-- C10: the two pipelines treat a NULL counter differently.  The open
handler reads the count through `result[0] or 0` (line 100), so a NULL open
count becomes 0 and the update stores 1, with the pixel still returned.  The
click handler has no such guard: `click_count + 1` on a NULL count is
Python `None + 1`, a `TypeError`, so the except arm answers the 500
"Error processing link", no redirect is issued, and the whole table is
returned unchanged. -/
theorem null_count_pipelines_differ
    (edb : EmailStore) (id : String) (r : EmailRecord) (oev : OpenEvent)
    (ldb : LinkStore) (lid : String) (s : LinkRecord) (cev : ClickEvent)
    (hr : lookupEmail edb id = some r) (hrnull : r.open_count = none)
    (hs : lookupLink ldb lid = some s) (hsnull : s.click_count = none) :
    ((lookupEmail (track_email edb id oev).1 id).map EmailRecord.open_count
        = some (some 1)) ∧
    ((track_email edb id oev).2 = .pixelResponse TRACKING_PIXEL "image/gif") ∧
    track_link_click ldb lid cev
      = (ldb, .plainResponse "Error processing link" 500) := by
  refine ⟨?_, by simp [track_email, hr], by simp [track_link_click, hs, hsnull]⟩
  have hfst : (track_email edb id oev).1
      = updateEmail edb id oev (orZero r.open_count + 1) := by
    simp [track_email, hr]
  rw [hfst, lookupEmail_updateEmail, if_pos rfl, hr, Option.map_some',
    Option.map_some']
  simp [openUpdate, hrnull, orZero]

/-- C10 witness: on NULL-count records, the open pipeline stores count 1 and
answers the pixel while the click pipeline answers the 500 and leaves its
table unchanged. -/
theorem null_count_pipelines_differ_witness :
    ((lookupEmail (track_email [("t1", nullCountEmail)] "t1"
          ⟨4, "UA", "ip"⟩).1 "t1").map EmailRecord.open_count
        = some (some 1)) ∧
    ((track_email [("t1", nullCountEmail)] "t1" ⟨4, "UA", "ip"⟩).2
        = .pixelResponse TRACKING_PIXEL "image/gif") ∧
    track_link_click [("lnk0", nullCountLink)] "lnk0" ⟨5, "UA", "ip"⟩
      = ([("lnk0", nullCountLink)], .plainResponse "Error processing link" 500) :=
  null_count_pipelines_differ [("t1", nullCountEmail)] "t1" nullCountEmail
    ⟨4, "UA", "ip"⟩ [("lnk0", nullCountLink)] "lnk0" nullCountLink
    ⟨5, "UA", "ip"⟩ rfl rfl rfl rfl

/-! ### Reachable-state invariants -/

/-- C9: starting from a freshly created record — count 0 or NULL, timestamp
column NULL, as the upstream inserter leaves it — any sequence of open
events handled by this core keeps the tracking invariant (the count, read
as the code reads it with NULL as 0, equals the number of successfully
applied open events, and the opened timestamp is non-null iff the count is
positive), and any sequence of click events keeps the link invariant (click
count positive iff last-clicked is non-null, with the count again equal to
the number of successfully applied click events). -/
theorem fresh_record_invariants
    (edb : EmailStore) (id : String) (r0 : EmailRecord) (oevs : List OpenEvent)
    (ldb : LinkStore) (lid : String) (s0 : LinkRecord) (cevs : List ClickEvent)
    (hr : lookupEmail edb id = some r0)
    (hr0 : r0.open_count = some 0 ∨ r0.open_count = none)
    (hro : r0.opened_at = none)
    (hs : lookupLink ldb lid = some s0)
    (hs0 : s0.click_count = some 0 ∨ s0.click_count = none)
    (hsl : s0.last_clicked = none) :
    (∃ r', lookupEmail (applyOpens edb id oevs) id = some r' ∧
       orZero r'.open_count = (countSuccessfulOpens edb id oevs : Int) ∧
       (r'.opened_at ≠ none ↔ 0 < orZero r'.open_count)) ∧
    (∃ s', lookupLink (applyClicks ldb lid cevs) lid = some s' ∧
       orZero s'.click_count = (countSuccessfulClicks ldb lid cevs : Int) ∧
       (0 < orZero s'.click_count ↔ s'.last_clicked ≠ none)) := by
  constructor
  · have h0 : orZero r0.open_count = ((0 : Nat) : Int) := by
      rcases hr0 with h | h
      · rw [h, orZero_some]; rfl
      · rw [h, orZero_none]; rfl
    have hiff : r0.opened_at ≠ none ↔ 0 < 0 := by simp [hro]
    obtain ⟨r', h1, h2, h3⟩ := applyOpens_invariant id oevs edb r0 0 hr h0 hiff
    exact ⟨r', h1, by simpa using h2, h3⟩
  · have h0 : s0.click_count = some ((0 : Nat) : Int) ∨
        (s0.click_count = none ∧ 0 = 0) := by
      rcases hs0 with h | h
      · left; simpa using h
      · right; exact ⟨h, rfl⟩
    have hiff : 0 < 0 ↔ s0.last_clicked ≠ none := by simp [hsl]
    obtain ⟨s', h1, h2, h3⟩ := applyClicks_invariant lid cevs ldb s0 0 hs h0 hiff
    exact ⟨s', h1, by simpa using h2, h3⟩

/-- C9 witness: two opens on `sampleEmail` and, on the link side, one click
on a NULL-count record (which fails), keep both invariants. -/
theorem fresh_record_invariants_witness :
    (∃ r', lookupEmail (applyOpens [("t1", sampleEmail)] "t1"
          [⟨1, "U", "i"⟩, ⟨2, "U", "i"⟩]) "t1" = some r' ∧
       orZero r'.open_count = (countSuccessfulOpens [("t1", sampleEmail)] "t1"
          [⟨1, "U", "i"⟩, ⟨2, "U", "i"⟩] : Int) ∧
       (r'.opened_at ≠ none ↔ 0 < orZero r'.open_count)) ∧
    (∃ s', lookupLink (applyClicks [("lnk0", nullCountLink)] "lnk0"
          [⟨3, "U", "i"⟩]) "lnk0" = some s' ∧
       orZero s'.click_count = (countSuccessfulClicks [("lnk0", nullCountLink)]
          "lnk0" [⟨3, "U", "i"⟩] : Int) ∧
       (0 < orZero s'.click_count ↔ s'.last_clicked ≠ none)) :=
  fresh_record_invariants [("t1", sampleEmail)] "t1" sampleEmail
    [⟨1, "U", "i"⟩, ⟨2, "U", "i"⟩] [("lnk0", nullCountLink)] "lnk0"
    nullCountLink [⟨3, "U", "i"⟩] rfl (Or.inl rfl) rfl rfl (Or.inr rfl) rfl
